import Mathlib

/-!
Verification of the lottery/ticket-sales administration application.

The development shallowly embeds the logic the specification talks about:

* the Numbering Engine of src/lib/supabase.ts (diary/ticket conversions,
  formatting and parsing of 5-digit lottery numbers);
* the Winner Integrity Guard: the BEFORE INSERT / BEFORE UPDATE trigger
  functions of database/fix_lottery_winners_data_integrity.sql over the
  lottery_winners table of database/create_lottery_winners.sql;
* the registration and edit paths of src/pages/Search.tsx and
  src/pages/Winners.tsx that drive those triggers.

Modelling conventions:

* JavaScript numbers holding lottery/diary quantities are embedded as Int
  (they are integers everywhere in this code); `Math.ceil (x / d)` on an
  integer `x` with positive integer `d` is embedded as `-((-x) / d)` using
  Lean's Int floor-style division (for a positive divisor Int `/` rounds
  down, and the ceiling of a quotient is the negated floor of the negated
  quotient).
* SQL text values and JS strings are embedded as lists of characters
  (`Str` below); SQL `TRIM` and JS `String.prototype.trim` both drop
  leading and trailing whitespace, embedded by `trim` below; nullable text
  columns and optional JS fields are `Option Str`.
* The 5-digit display strings of `formatLotteryNumber` are embedded as
  their lists of decimal digit values, most significant first; `padStart
  (5, "0")` prepends zero digits and `parseInt (s, 10)` reads the digit
  list back as a base-10 numeral.
* Table state is embedded as a list of rows; timestamps are abstract
  instants (Nat); store-generated ids and timestamps of a freshly
  inserted row are the placeholder 0.
-/

/-- Character-list embedding of SQL text values / JS strings. -/
abbrev Str : Type := List Char

/-- SQL `TRIM(x)` / JS `x.trim()`: drop leading and trailing whitespace. -/
def trim (s : Str) : Str :=
  ((s.dropWhile Char.isWhitespace).reverse.dropWhile Char.isWhitespace).reverse

/-- Embedding of `Math.ceil (n / d)` for an integer `n` and positive integer
`d`: the ceiling of the rational quotient, computed as the negated floor
division of the negation. -/
def ceilDiv (n d : Int) : Int := -((-n) / d)

/-- `getDiaryFromLotteryNumber` of src/lib/supabase.ts:
if `lotteryNumber <= 39996` return `Math.ceil (lotteryNumber / 22)`,
otherwise return 1819 (the last diary). -/
def getDiaryFromLotteryNumber (lotteryNumber : Int) : Int :=
  if lotteryNumber ≤ 39996 then ceilDiv lotteryNumber 22 else 1819

/-- The `{ start, end }` record returned by `getTicketRangeForDiary`
(`end` is a Lean keyword, so the second field is named `stop`). -/
structure TicketRange where
  start : Int
  stop : Int
deriving DecidableEq, Repr

/-- `getTicketRangeForDiary` of src/lib/supabase.ts: diary 1819 gets the
short range (39997, 39999); any other diary `d` gets
`((d - 1) * 22 + 1, d * 22)`. -/
def getTicketRangeForDiary (diaryNumber : Int) : TicketRange :=
  if diaryNumber = 1819 then { start := 39997, stop := 39999 }
  else { start := (diaryNumber - 1) * 22 + 1, stop := diaryNumber * 22 }

/-- `validateLotteryNumberForDiary` of src/lib/supabase.ts:
`lotteryNumber >= range.start && lotteryNumber <= range.end` for the
range of the given diary. -/
def validateLotteryNumberForDiary (lotteryNumber diaryNumber : Int) : Bool :=
  decide ((getTicketRangeForDiary diaryNumber).start ≤ lotteryNumber) &&
    decide (lotteryNumber ≤ (getTicketRangeForDiary diaryNumber).stop)

/-- `formatLotteryNumber` of src/lib/supabase.ts:
`lotteryNumber.toString().padStart(5, "0")`, embedded at the digit level:
the base-10 digits of the number, most significant first, with zero digits
prepended up to length 5. -/
def formatLotteryNumber (lotteryNumber : Nat) : List Nat :=
  List.replicate (5 - (Nat.digits 10 lotteryNumber).reverse.length) 0 ++
    (Nat.digits 10 lotteryNumber).reverse

/-- `parseLotteryNumber` of src/lib/supabase.ts: `parseInt(s, 10)` on a
digit string, embedded as reading the digit list as a base-10 numeral
(leading zeros contribute nothing). -/
def parseLotteryNumber (s : List Nat) : Nat :=
  Nat.ofDigits 10 s.reverse

/-- Every valid ticket number lies in the range of the diary computed for
it. Shared backbone of the range/diary claims. -/
lemma validate_diary_of_ticket (n : Int) (h1 : 1 ≤ n) (h2 : n ≤ 39999) :
    validateLotteryNumberForDiary n (getDiaryFromLotteryNumber n) = true := by
  unfold validateLotteryNumberForDiary getTicketRangeForDiary
    getDiaryFromLotteryNumber ceilDiv
  split_ifs <;> simp only [Bool.and_eq_true, decide_eq_true_eq] <;> omega

/-- The diary computed for a valid ticket number lies in [1, 1819]. -/
lemma diary_of_ticket_bounds (n : Int) (h1 : 1 ≤ n) (h2 : n ≤ 39999) :
    1 ≤ getDiaryFromLotteryNumber n ∧ getDiaryFromLotteryNumber n ≤ 1819 := by
  unfold getDiaryFromLotteryNumber ceilDiv
  split_ifs <;> omega

/-- Claim C1: for every integer n in [1, 39999] the range returned by
`getTicketRangeForDiary (getDiaryFromLotteryNumber n)` contains n, i.e.
`validateLotteryNumberForDiary n (getDiaryFromLotteryNumber n)` is true. -/
theorem ticket_in_diary_of_ticket (n : Int) (h1 : 1 ≤ n) (h2 : n ≤ 39999) :
    validateLotteryNumberForDiary n (getDiaryFromLotteryNumber n) = true :=
  validate_diary_of_ticket n h1 h2

/-- Witness for C1 at the concrete ticket number 105. -/
theorem ticket_in_diary_of_ticket_witness :
    (1 ≤ (105 : Int) ∧ (105 : Int) ≤ 39999) ∧
      validateLotteryNumberForDiary 105 (getDiaryFromLotteryNumber 105) = true :=
  ⟨by decide, ticket_in_diary_of_ticket 105 (by decide) (by decide)⟩

/-- Claim C4: the diary ranges partition [1, 39999]: every valid ticket
number lies in some diary's range; a diary's range only holds valid ticket
numbers; distinct diaries' ranges are disjoint; consecutive ranges are
contiguous; every diary in [1, 1818] holds exactly 22 tickets; diary 1819
has range exactly (39997, 39999) and is the only diary holding fewer than
22 tickets. -/
theorem diary_ranges_partition :
    (∀ n : Int, 1 ≤ n → n ≤ 39999 →
      ∃ d : Int, 1 ≤ d ∧ d ≤ 1819 ∧ validateLotteryNumberForDiary n d = true) ∧
    (∀ d n : Int, 1 ≤ d → d ≤ 1819 → validateLotteryNumberForDiary n d = true →
      1 ≤ n ∧ n ≤ 39999) ∧
    (∀ d1 d2 n : Int, 1 ≤ d1 → d1 ≤ 1819 → 1 ≤ d2 → d2 ≤ 1819 → d1 ≠ d2 →
      ¬(validateLotteryNumberForDiary n d1 = true ∧
        validateLotteryNumberForDiary n d2 = true)) ∧
    (∀ d : Int, 1 ≤ d → d ≤ 1818 →
      (getTicketRangeForDiary (d + 1)).start = (getTicketRangeForDiary d).stop + 1) ∧
    (∀ d : Int, 1 ≤ d → d ≤ 1818 →
      (getTicketRangeForDiary d).stop - (getTicketRangeForDiary d).start + 1 = 22) ∧
    getTicketRangeForDiary 1819 = { start := 39997, stop := 39999 } ∧
    (∀ d : Int, 1 ≤ d → d ≤ 1819 →
      (getTicketRangeForDiary d).stop - (getTicketRangeForDiary d).start + 1 < 22 →
      d = 1819) := by
  refine ⟨?_, ?_, ?_, ?_, ?_, by decide, ?_⟩
  · intro n h1 h2
    exact ⟨getDiaryFromLotteryNumber n, (diary_of_ticket_bounds n h1 h2).1,
      (diary_of_ticket_bounds n h1 h2).2, validate_diary_of_ticket n h1 h2⟩
  · intro d n hd1 hd2 hv
    revert hv
    unfold validateLotteryNumberForDiary getTicketRangeForDiary
    split_ifs <;> simp only [Bool.and_eq_true, decide_eq_true_eq] <;> omega
  · intro d1 d2 n hd1 hd2 hd3 hd4 hne hv
    revert hv
    unfold validateLotteryNumberForDiary getTicketRangeForDiary
    split_ifs <;>
      simp only [Bool.and_eq_true, decide_eq_true_eq, not_and] <;> omega
  · intro d h1 h2
    unfold getTicketRangeForDiary
    split_ifs <;> simp <;> omega
  · intro d h1 h2
    unfold getTicketRangeForDiary
    split_ifs <;> simp <;> omega
  · intro d h1 h2
    unfold getTicketRangeForDiary
    split_ifs <;> simp <;> omega

/-- Witness for C4 at the concrete ticket number 39998 (covered by diary
1819) and diary 7 (exactly 22 tickets). -/
theorem diary_ranges_partition_witness :
    (∃ d : Int, 1 ≤ d ∧ d ≤ 1819 ∧ validateLotteryNumberForDiary 39998 d = true) ∧
      (getTicketRangeForDiary 7).stop - (getTicketRangeForDiary 7).start + 1 = 22 :=
  ⟨diary_ranges_partition.1 39998 (by decide) (by decide),
    diary_ranges_partition.2.2.2.2.1 7 (by decide) (by decide)⟩

/-- The value of a run of zero digits is zero. -/
lemma ofDigits_replicate_zero (b k : ℕ) :
    Nat.ofDigits b (List.replicate k 0) = 0 := by
  induction k with
  | zero => simp [Nat.ofDigits_nil]
  | succ k ih => simp [List.replicate_succ, Nat.ofDigits_cons, ih]

/-- A number at most 39999 has at most 5 decimal digits. -/
lemma digits_len_le_five (n : Nat) (h1 : 1 ≤ n) (h2 : n ≤ 39999) :
    (Nat.digits 10 n).length ≤ 5 := by
  by_contra h
  push_neg at h
  have hb := Nat.base_pow_length_digits_le 10 n (by norm_num) (by omega)
  have hpow : (10 : ℕ) ^ 6 ≤ 10 ^ (Nat.digits 10 n).length :=
    Nat.pow_le_pow_right (by norm_num) (by omega)
  have h6 : (10 : ℕ) ^ 6 = 1000000 := by norm_num
  linarith

/-- Claim C5: formatting a valid lottery number zero-pads it to exactly 5
decimal digits, and parsing the result recovers the number. -/
theorem parse_format_roundtrip (n : Nat) (h1 : 1 ≤ n) (h2 : n ≤ 39999) :
    (formatLotteryNumber n).length = 5 ∧
      parseLotteryNumber (formatLotteryNumber n) = n := by
  have hlen := digits_len_le_five n h1 h2
  constructor
  · simp only [formatLotteryNumber, List.length_append, List.length_replicate,
      List.length_reverse]
    omega
  · simp only [parseLotteryNumber, formatLotteryNumber, List.reverse_append,
      List.reverse_reverse, List.reverse_replicate, Nat.ofDigits_append,
      Nat.ofDigits_digits, ofDigits_replicate_zero, Nat.mul_zero, Nat.add_zero]

/-- Witness for C5 at the concrete lottery number 105. -/
theorem parse_format_roundtrip_witness :
    (formatLotteryNumber 105).length = 5 ∧
      parseLotteryNumber (formatLotteryNumber 105) = 105 :=
  parse_format_roundtrip 105 (by decide) (by decide)

/-- Claim C6: `getDiaryFromLotteryNumber` is monotone non-decreasing on all
integers, and on the input contract [1, 39999] its result lies in
[1, 1819]. -/
theorem diary_of_ticket_monotone :
    (∀ n1 n2 : Int, n1 < n2 →
      getDiaryFromLotteryNumber n1 ≤ getDiaryFromLotteryNumber n2) ∧
    (∀ n : Int, 1 ≤ n → n ≤ 39999 →
      1 ≤ getDiaryFromLotteryNumber n ∧ getDiaryFromLotteryNumber n ≤ 1819) := by
  constructor
  · intro n1 n2 h
    unfold getDiaryFromLotteryNumber ceilDiv
    split_ifs <;> omega
  · exact diary_of_ticket_bounds

/-- Witness for C6 at the concrete pair 105 < 39999. -/
theorem diary_of_ticket_monotone_witness :
    getDiaryFromLotteryNumber 105 ≤ getDiaryFromLotteryNumber 39999 ∧
      1 ≤ getDiaryFromLotteryNumber 39999 ∧
        getDiaryFromLotteryNumber 39999 ≤ 1819 :=
  ⟨diary_of_ticket_monotone.1 105 39999 (by decide),
    diary_of_ticket_monotone.2 39999 (by decide) (by decide)⟩

/-- The plain ceiling mapping described by the specification for
`diaryForTicket`: every ticket number n is sent to the ceiling of n / 22,
with no special case. -/
def diaryForTicketCeil (n : Int) : Int := ceilDiv n 22

/-- The general range formula of `getTicketRangeForDiary` (the non-1819
branch), extended to every diary number. -/
def ticketRangeGeneral (d : Int) : TicketRange :=
  { start := (d - 1) * 22 + 1, stop := d * 22 }

/-- Claim C9: on the whole valid range [1, 39999] the two-branch
`getDiaryFromLotteryNumber` agrees with the plain ceiling formula (the
1819 branch coincides with the ceiling on 39997..39999), whereas the 1819
branch of `getTicketRangeForDiary` does not reduce to that function's
general formula. -/
theorem diary_of_ticket_eq_ceil :
    (∀ n : Int, 1 ≤ n → n ≤ 39999 →
      getDiaryFromLotteryNumber n = diaryForTicketCeil n) ∧
    getTicketRangeForDiary 1819 ≠ ticketRangeGeneral 1819 := by
  constructor
  · intro n h1 h2
    unfold getDiaryFromLotteryNumber diaryForTicketCeil ceilDiv
    split_ifs <;> omega
  · decide

/-- Witness for C9 at the concrete ticket number 39997. -/
theorem diary_of_ticket_eq_ceil_witness :
    getDiaryFromLotteryNumber 39997 = diaryForTicketCeil 39997 :=
  diary_of_ticket_eq_ceil.1 39997 (by decide) (by decide)

/-- A row of the `lottery_winners` table of
database/create_lottery_winners.sql. Nullable text columns are
`Option Str`; `lottery_number` and `prize_quantity` are NOT NULL integer
columns; ids are abstract (Nat); timestamps are abstract instants (Nat).
The trigger functions below additionally guard the required text columns
against NULL, so those are kept optional here as the triggers see them. -/
structure WinnerRow where
  id : Nat
  lottery_number : Int
  ticket_sale_id : Option Nat
  prize_category : Option Str
  prize_quantity : Int
  winner_name : Option Str
  winner_contact : Option Str
  winner_address : Option Str
  diary_number : Option Int
  registered_at : Nat
  registered_by : Option Nat
  notes : Option Str
  created_at : Nat
  updated_at : Nat
deriving DecidableEq, Repr

/-- The rejection conditions raised by the two trigger functions of
database/fix_lottery_winners_data_integrity.sql, under the names the
specification gives them: a required text field NULL or blank
(`MissingRequiredField`, tagged with the column name), or an attempt to
change `lottery_number` (`ImmutableFieldViolation`, carrying the original
and the attempted value). -/
inductive RejectionError where
  | MissingRequiredField : String → RejectionError
  | ImmutableFieldViolation : Int → Int → RejectionError
deriving DecidableEq, Repr

/-- The blank test of the triggers: `x IS NULL OR LENGTH(TRIM(x)) = 0`. -/
def isBlank : Option Str → Bool
  | none => true
  | some s => (trim s).length == 0

/-- Trimming of a nullable text column: `TRIM` of the value when present
(the triggers trim the optional columns only under `IS NOT NULL`, and
`TRIM(NULL)` is `NULL`, so both cases are `Option.map trim`). -/
def trimOpt (s : Option Str) : Option Str := s.map trim

/-- `validate_winner_data_on_insert` of
database/fix_lottery_winners_data_integrity.sql (the BEFORE INSERT
trigger function on `lottery_winners`): raise if `winner_name`,
`winner_contact` or `prize_category` is NULL or blank, in that order;
otherwise return NEW with the five text columns trimmed. -/
def validate_winner_data_on_insert (NEW : WinnerRow) :
    Except RejectionError WinnerRow :=
  if isBlank NEW.winner_name then
    .error (.MissingRequiredField "winner_name")
  else if isBlank NEW.winner_contact then
    .error (.MissingRequiredField "winner_contact")
  else if isBlank NEW.prize_category then
    .error (.MissingRequiredField "prize_category")
  else
    .ok { NEW with
      winner_name := trimOpt NEW.winner_name
      winner_contact := trimOpt NEW.winner_contact
      prize_category := trimOpt NEW.prize_category
      winner_address := trimOpt NEW.winner_address
      notes := trimOpt NEW.notes }

/-- `prevent_winner_data_loss` of
database/fix_lottery_winners_data_integrity.sql (the BEFORE UPDATE
trigger function on `lottery_winners`): raise if a required text column
of NEW is NULL or blank (in the same order as on insert), then raise if
NEW.lottery_number differs from OLD.lottery_number (the exception carries
the original and the attempted value); otherwise return NEW with the five
text columns trimmed. -/
def prevent_winner_data_loss (OLD NEW : WinnerRow) :
    Except RejectionError WinnerRow :=
  if isBlank NEW.winner_name then
    .error (.MissingRequiredField "winner_name")
  else if isBlank NEW.winner_contact then
    .error (.MissingRequiredField "winner_contact")
  else if isBlank NEW.prize_category then
    .error (.MissingRequiredField "prize_category")
  else if NEW.lottery_number ≠ OLD.lottery_number then
    .error (.ImmutableFieldViolation OLD.lottery_number NEW.lottery_number)
  else
    .ok { NEW with
      winner_name := trimOpt NEW.winner_name
      winner_contact := trimOpt NEW.winner_contact
      prize_category := trimOpt NEW.prize_category
      winner_address := trimOpt NEW.winner_address
      notes := trimOpt NEW.notes }

/-- `update_lottery_winners_updated_at` of
database/create_lottery_winners.sql (the second BEFORE UPDATE trigger on
`lottery_winners`): set NEW.updated_at to the current instant. -/
def update_lottery_winners_updated_at (now : Nat) (NEW : WinnerRow) :
    WinnerRow :=
  { NEW with updated_at := now }

/-- One UPDATE of a stored `lottery_winners` row with proposed new values:
the BEFORE UPDATE triggers run in name order (`prevent_lottery_winner_data_loss`
before `update_lottery_winners_updated_at`); a raised exception aborts
the write, leaving the stored row unchanged and surfacing the error;
otherwise the transformed row replaces the stored one. -/
def applyWinnerUpdate (now : Nat) (stored proposed : WinnerRow) :
    WinnerRow × Option RejectionError :=
  match prevent_winner_data_loss stored proposed with
  | .error e => (stored, some e)
  | .ok r => (update_lottery_winners_updated_at now r, none)

/-- The five columns sent by `handleSaveEdit` of src/pages/Winners.tsx. -/
structure WinnerUpdatePayload where
  prize_category : Option Str
  winner_name : Option Str
  winner_contact : Option Str
  winner_address : Option Str
  notes : Option Str
deriving DecidableEq, Repr

/-- `handleSaveEdit` of src/pages/Winners.tsx builds the proposed new row:
the stored row with exactly the five columns `prize_category`,
`winner_name`, `winner_contact`, `winner_address`, `notes` replaced by
the payload. -/
def handleSaveEdit (stored : WinnerRow) (upd : WinnerUpdatePayload) :
    WinnerRow :=
  { stored with
    prize_category := upd.prize_category
    winner_name := upd.winner_name
    winner_contact := upd.winner_contact
    winner_address := upd.winner_address
    notes := upd.notes }

/-- The legitimate winner edit path: `handleSaveEdit` submits its five
columns and the store runs the UPDATE triggers. -/
def legitimateWinnerUpdate (now : Nat) (stored : WinnerRow)
    (upd : WinnerUpdatePayload) : WinnerRow × Option RejectionError :=
  applyWinnerUpdate now stored (handleSaveEdit stored upd)

/-- One `{ name, quantity }` entry of `PRIZE_CATEGORIES`. -/
structure PrizeCategoryEntry where
  name : Str
  quantity : Int
deriving DecidableEq, Repr

/-- `PRIZE_CATEGORIES` of src/lib/supabase.ts. -/
def PRIZE_CATEGORIES : List PrizeCategoryEntry :=
  [{ name := "THAR CAR".data, quantity := 1 },
   { name := "SWIFT CAR".data, quantity := 1 },
   { name := "E-Rickshaw".data, quantity := 1 },
   { name := "Bullet Bike".data, quantity := 1 },
   { name := "HF delux Bike".data, quantity := 5 },
   { name := "Electric Bike".data, quantity := 3 },
   { name := "AC 1Ton".data, quantity := 1 },
   { name := "Laptop".data, quantity := 3 },
   { name := "32 Inch LED TV".data, quantity := 5 },
   { name := "Fridge".data, quantity := 5 },
   { name := "Washing Machine".data, quantity := 5 },
   { name := "Sewing Machine".data, quantity := 5 },
   { name := "Sports Cycle".data, quantity := 5 },
   { name := "5G Mobile".data, quantity := 11 },
   { name := "Cooler".data, quantity := 11 },
   { name := "Child EV Bike".data, quantity := 10 },
   { name := "Home Theater".data, quantity := 5 },
   { name := "Electric Water Heater".data, quantity := 5 },
   { name := "Battery Spray Pump".data, quantity := 27 },
   { name := "Mixer".data, quantity := 10 },
   { name := "Induction stove".data, quantity := 10 },
   { name := "Ceiling Fan".data, quantity := 10 },
   { name := "Smart Watch".data, quantity := 11 },
   { name := "Gas Stove".data, quantity := 27 },
   { name := "Helmet".data, quantity := 54 },
   { name := "Silver Coin".data, quantity := 54 },
   { name := "Wall Clock".data, quantity := 108 },
   { name := "Photo Frame".data, quantity := 108 }]

/-- `getPrizeQuantity` of src/pages/Search.tsx: the quantity of the named
category, or 0 when the name is unknown. -/
def getPrizeQuantity (prizeName : Str) : Int :=
  match PRIZE_CATEGORIES.find? (fun p => p.name == prizeName) with
  | some p => p.quantity
  | none => 0

/-- The `usedQuantity` count of `getRemainingQuantity` of
src/pages/Search.tsx: the number of stored winner rows whose
`prize_category` equals the given name. -/
def usedQuantity (winners : List WinnerRow) (prizeName : Str) : Nat :=
  (winners.filter (fun w => w.prize_category == some prizeName)).length

/-- `getRemainingQuantity` of src/pages/Search.tsx: the category's fixed
total quantity minus the number of winner rows already carrying it. -/
def getRemainingQuantity (winners : List WinnerRow) (prizeName : Str) : Int :=
  getPrizeQuantity prizeName - (usedQuantity winners prizeName : Int)

/-- `checkIfAlreadyWon` of src/pages/Search.tsx: membership of the lottery
number in the cached set of already-winning numbers. -/
def checkIfAlreadyWon (existingWinners : List Int) (lotteryNumber : Int) :
    Bool :=
  existingWinners.contains lotteryNumber

/-- The fields of a `ticket_sales` row (with its joined diary) that the
registration path of src/pages/Search.tsx reads: `diary` records whether
the joined diary object is present (its truthiness in `ticket.diary ?`). -/
structure TicketSale where
  id : Nat
  lottery_number : Int
  purchaser_name : Option Str
  purchaser_contact : Option Str
  purchaser_address : Option Str
  diary : Bool
deriving DecidableEq, Repr

/-- The row `registerWinner` of src/pages/Search.tsx submits for insertion:
trimmed purchaser data, `purchaser_address?.trim() || null` (so a missing
or whitespace-only address becomes NULL), and `diary_number` set to
`getDiaryFromLotteryNumber` of the ticket's lottery number exactly when
the joined diary is present. Store-generated id and timestamps are the
placeholder 0; `registered_by` and `notes` are not sent. -/
def newWinnerRecord (ticket : TicketSale) (selectedPrizeCategory : Str) :
    WinnerRow :=
  { id := 0
    lottery_number := ticket.lottery_number
    ticket_sale_id := some ticket.id
    prize_category := some (trim selectedPrizeCategory)
    prize_quantity := getPrizeQuantity selectedPrizeCategory
    winner_name := trimOpt ticket.purchaser_name
    winner_contact := trimOpt ticket.purchaser_contact
    winner_address :=
      match ticket.purchaser_address with
      | none => none
      | some a => if (trim a).isEmpty then none else some (trim a)
    diary_number :=
      if ticket.diary then some (getDiaryFromLotteryNumber ticket.lottery_number)
      else none
    registered_at := 0
    registered_by := none
    notes := none
    created_at := 0
    updated_at := 0 }

/-- The error outcomes of a registration attempt in src/pages/Search.tsx:
the early client-side rejections, the store's unique-constraint rejection
(error code 23505, surfaced as "already won"), and a rejection raised by
the BEFORE INSERT trigger. -/
inductive RegisterError where
  | NoPrizeSelected
  | AlreadyWon
  | QuantityExceeded
  | MissingPurchaserName
  | MissingPurchaserContact
  | DuplicateWinner
  | GuardRejected : RejectionError → RegisterError
deriving DecidableEq, Repr

/-- One INSERT into `lottery_winners`: the BEFORE INSERT trigger runs
first (a raised exception aborts the insert), then the unique constraint
on `lottery_number` is checked; on success the trigger's transformed row
is persisted. -/
def storeInsertWinner (winners : List WinnerRow) (r : WinnerRow) :
    Except RegisterError (WinnerRow × List WinnerRow) :=
  match validate_winner_data_on_insert r with
  | .error e => .error (.GuardRejected e)
  | .ok r1 =>
    if winners.any (fun w => w.lottery_number == r1.lottery_number) then
      .error .DuplicateWinner
    else
      .ok (r1, r1 :: winners)

/-- `registerWinner` of src/pages/Search.tsx, as the sequence of checks it
performs before inserting: no prize selected; the cached already-won set;
the remaining quantity of the selected category read from the current
winners state; blank purchaser name; blank purchaser contact; then the
store insert. Returns the outcome together with the winners state after
the attempt. -/
def registerWinner (existingWinners : List Int) (winners : List WinnerRow)
    (ticket : TicketSale) (selectedPrizeCategory : Option Str) :
    Except RegisterError WinnerRow × List WinnerRow :=
  match selectedPrizeCategory with
  | none => (.error .NoPrizeSelected, winners)
  | some prize =>
    if checkIfAlreadyWon existingWinners ticket.lottery_number then
      (.error .AlreadyWon, winners)
    else if getRemainingQuantity winners prize ≤ 0 then
      (.error .QuantityExceeded, winners)
    else if isBlank ticket.purchaser_name then
      (.error .MissingPurchaserName, winners)
    else if isBlank ticket.purchaser_contact then
      (.error .MissingPurchaserContact, winners)
    else
      match storeInsertWinner winners (newWinnerRecord ticket prize) with
      | .error e => (.error e, winners)
      | .ok (r1, ws) => (.ok r1, ws)

deriving instance DecidableEq for Except

/-- Shape of a successful run of the INSERT trigger: the returned row is
the proposed row with the five text columns trimmed. -/
lemma validate_insert_ok_shape (r r' : WinnerRow)
    (h : validate_winner_data_on_insert r = .ok r') :
    r' = { r with
      winner_name := trimOpt r.winner_name
      winner_contact := trimOpt r.winner_contact
      prize_category := trimOpt r.prize_category
      winner_address := trimOpt r.winner_address
      notes := trimOpt r.notes } := by
  unfold validate_winner_data_on_insert at h
  split_ifs at h
  exact (Except.ok.inj h).symm

/-- Shape of a successful run of the UPDATE guard trigger: the returned
row is the proposed row with the five text columns trimmed, and the
proposed row kept the stored lottery number. -/
lemma prevent_ok_shape (OLD NEW r' : WinnerRow)
    (h : prevent_winner_data_loss OLD NEW = .ok r') :
    r' = { NEW with
      winner_name := trimOpt NEW.winner_name
      winner_contact := trimOpt NEW.winner_contact
      prize_category := trimOpt NEW.prize_category
      winner_address := trimOpt NEW.winner_address
      notes := trimOpt NEW.notes } ∧
    NEW.lottery_number = OLD.lottery_number := by
  unfold prevent_winner_data_loss at h
  split_ifs at h with hb1 hb2 hb3 hl
  exact ⟨(Except.ok.inj h).symm, by omega⟩

/-- Claim C2: the INSERT trigger rejects with `MissingRequiredField`
exactly when `winner_name`, `winner_contact` or `prize_category` is NULL
or blank after trimming; when none is, the insert succeeds and persists
the record with all five text columns trimmed. -/
theorem insert_guard_spec (r : WinnerRow) :
    ((∃ f, validate_winner_data_on_insert r =
        Except.error (RejectionError.MissingRequiredField f)) ↔
      (isBlank r.winner_name = true ∨ isBlank r.winner_contact = true ∨
        isBlank r.prize_category = true)) ∧
    (isBlank r.winner_name = false → isBlank r.winner_contact = false →
      isBlank r.prize_category = false →
      validate_winner_data_on_insert r = Except.ok { r with
        winner_name := trimOpt r.winner_name
        winner_contact := trimOpt r.winner_contact
        prize_category := trimOpt r.prize_category
        winner_address := trimOpt r.winner_address
        notes := trimOpt r.notes }) := by
  cases hn : isBlank r.winner_name <;> cases hc : isBlank r.winner_contact <;>
    cases hp : isBlank r.prize_category <;>
    simp [validate_winner_data_on_insert, hn, hc, hp]

/-- A winner row with `winner_name = "  John Doe  "` and the other
required fields present, as submitted for insertion. -/
def johnRow : WinnerRow :=
  { id := 0
    lottery_number := 777
    ticket_sale_id := none
    prize_category := some "Helmet".data
    prize_quantity := 54
    winner_name := some "  John Doe  ".data
    winner_contact := some "9876543210".data
    winner_address := some "  12 Main St ".data
    diary_number := none
    registered_at := 0
    registered_by := none
    notes := none
    created_at := 0
    updated_at := 0 }

/-- Witness for C2: inserting `winner_name = "  John Doe  "` succeeds and
stores `"John Doe"`. -/
theorem insert_guard_spec_witness :
    ∃ r', validate_winner_data_on_insert johnRow = Except.ok r' ∧
      r'.winner_name = some "John Doe".data :=
  ⟨_, (insert_guard_spec johnRow).2 (by decide) (by decide) (by decide),
    by decide⟩

/-- A stored winner row with lottery number 105. -/
def storedRow : WinnerRow :=
  { id := 1
    lottery_number := 105
    ticket_sale_id := some 2
    prize_category := some "Helmet".data
    prize_quantity := 54
    winner_name := some "Alice".data
    winner_contact := some "9876543210".data
    winner_address := none
    diary_number := some 5
    registered_at := 10
    registered_by := some 3
    notes := none
    created_at := 10
    updated_at := 10 }

/-- A proposed update of `storedRow` that both blanks `winner_name` and
changes `lottery_number` to 106. -/
def blankedAttempt : WinnerRow :=
  { storedRow with winner_name := some " ".data, lottery_number := 106 }

/-- Counterexample for C3 as stated: an update changing `lottery_number`
105 to 106 that also blanks `winner_name` is rejected by the earlier
blank check, not with `ImmutableFieldViolation`. -/
theorem update_immutable_counterexample :
    blankedAttempt.lottery_number = 106 ∧ storedRow.lottery_number = 105 ∧
    prevent_winner_data_loss storedRow blankedAttempt =
      Except.error (RejectionError.MissingRequiredField "winner_name") ∧
    prevent_winner_data_loss storedRow blankedAttempt ≠
      Except.error (RejectionError.ImmutableFieldViolation 105 106) := by
  refine ⟨rfl, rfl, rfl, ?_⟩
  decide

/-- Claim C3 (amended): when the three required fields of the proposed row
pass the blank checks (which run first), an update whose new
`lottery_number` differs from the stored one is rejected with
`ImmutableFieldViolation` carrying the original and the attempted value;
and every update attempting to change `lottery_number`, blank fields or
not, is rejected and leaves the stored row unchanged. -/
theorem update_immutable_guard :
    (∀ OLD NEW : WinnerRow, isBlank NEW.winner_name = false →
      isBlank NEW.winner_contact = false → isBlank NEW.prize_category = false →
      NEW.lottery_number ≠ OLD.lottery_number →
      prevent_winner_data_loss OLD NEW = Except.error
        (RejectionError.ImmutableFieldViolation OLD.lottery_number
          NEW.lottery_number)) ∧
    (∀ (now : Nat) (OLD NEW : WinnerRow),
      NEW.lottery_number ≠ OLD.lottery_number →
      (applyWinnerUpdate now OLD NEW).1 = OLD ∧
        (applyWinnerUpdate now OLD NEW).2.isSome = true) := by
  constructor
  · intro OLD NEW h1 h2 h3 hne
    simp [prevent_winner_data_loss, h1, h2, h3, hne]
  · intro now OLD NEW hne
    unfold applyWinnerUpdate
    cases hp : prevent_winner_data_loss OLD NEW with
    | error e => exact ⟨rfl, rfl⟩
    | ok r => exact absurd (prevent_ok_shape OLD NEW r hp).2 hne

/-- A proposed update of `storedRow` changing only `lottery_number`,
105 to 106. -/
def renumberAttempt : WinnerRow :=
  { storedRow with lottery_number := 106 }

/-- Witness for C3 at the concrete attempt to change `lottery_number`
from 105 to 106: the rejection carries both values and the stored row
survives untouched. -/
theorem update_immutable_guard_witness :
    prevent_winner_data_loss storedRow renumberAttempt =
      Except.error (RejectionError.ImmutableFieldViolation 105 106) ∧
    (applyWinnerUpdate 42 storedRow renumberAttempt).1 = storedRow :=
  ⟨update_immutable_guard.1 storedRow renumberAttempt (by decide) (by decide)
      (by decide) (by decide),
    (update_immutable_guard.2 42 storedRow renumberAttempt (by decide)).1⟩

/-- A legitimate edit payload for `storedRow` (required fields non-blank). -/
def editPayload : WinnerUpdatePayload :=
  { prize_category := some "Helmet".data
    winner_name := some "Alice B".data
    winner_contact := some "9876543210".data
    winner_address := some "7 Oak Lane".data
    notes := some "corrected".data }

/-- Counterexample for C7 as stated: a successful edit through
`handleSaveEdit` does not leave every non-edited field unchanged, because
the `updated_at` trigger rewrites `updated_at` to the current instant. -/
theorem update_frame_counterexample :
    (legitimateWinnerUpdate 99 storedRow editPayload).2 = none ∧
    (legitimateWinnerUpdate 99 storedRow editPayload).1.updated_at ≠
      storedRow.updated_at := by
  refine ⟨rfl, ?_⟩
  decide

/-- Claim C7 (amended): a successful edit through the legitimate update
path writes only the five payload columns (stored trimmed) and
`updated_at` (set to the current instant by the store's own trigger);
every other field of the stored record retains its prior value. -/
theorem update_frame (now : Nat) (stored : WinnerRow)
    (upd : WinnerUpdatePayload) (r' : WinnerRow)
    (h : legitimateWinnerUpdate now stored upd = (r', none)) :
    r'.lottery_number = stored.lottery_number ∧ r'.id = stored.id ∧
    r'.ticket_sale_id = stored.ticket_sale_id ∧
    r'.prize_quantity = stored.prize_quantity ∧
    r'.diary_number = stored.diary_number ∧
    r'.registered_at = stored.registered_at ∧
    r'.registered_by = stored.registered_by ∧
    r'.created_at = stored.created_at ∧
    r'.prize_category = trimOpt upd.prize_category ∧
    r'.winner_name = trimOpt upd.winner_name ∧
    r'.winner_contact = trimOpt upd.winner_contact ∧
    r'.winner_address = trimOpt upd.winner_address ∧
    r'.notes = trimOpt upd.notes ∧
    r'.updated_at = now := by
  unfold legitimateWinnerUpdate applyWinnerUpdate at h
  cases hp : prevent_winner_data_loss stored (handleSaveEdit stored upd) with
  | error e => rw [hp] at h; simp at h
  | ok r0 =>
    rw [hp] at h
    have hshape := (prevent_ok_shape _ _ _ hp).1
    have hr : r' = update_lottery_winners_updated_at now r0 :=
      (Prod.mk.injEq _ _ _ _ ▸ h).1.symm
    subst hshape
    subst hr
    exact ⟨rfl, rfl, rfl, rfl, rfl, rfl, rfl, rfl, rfl, rfl, rfl, rfl, rfl, rfl⟩

/-- The row produced by the successful edit of `storedRow` with
`editPayload` at instant 99. -/
def editedRow : WinnerRow :=
  { storedRow with
    prize_category := some "Helmet".data
    winner_name := some "Alice B".data
    winner_contact := some "9876543210".data
    winner_address := some "7 Oak Lane".data
    notes := some "corrected".data
    updated_at := 99 }

/-- Witness for C7 at the concrete edit of `storedRow`: the frame fields
keep their values and the payload lands trimmed. -/
theorem update_frame_witness :
    editedRow.lottery_number = storedRow.lottery_number ∧
    editedRow.id = storedRow.id ∧
    editedRow.ticket_sale_id = storedRow.ticket_sale_id ∧
    editedRow.prize_quantity = storedRow.prize_quantity ∧
    editedRow.diary_number = storedRow.diary_number ∧
    editedRow.registered_at = storedRow.registered_at ∧
    editedRow.registered_by = storedRow.registered_by ∧
    editedRow.created_at = storedRow.created_at ∧
    editedRow.prize_category = trimOpt editPayload.prize_category ∧
    editedRow.winner_name = trimOpt editPayload.winner_name ∧
    editedRow.winner_contact = trimOpt editPayload.winner_contact ∧
    editedRow.winner_address = trimOpt editPayload.winner_address ∧
    editedRow.notes = trimOpt editPayload.notes ∧
    editedRow.updated_at = 99 :=
  update_frame 99 storedRow editPayload editedRow (by decide)

/-- A stored winner row occupying the single "THAR CAR" prize. -/
def tharWinner : WinnerRow :=
  { id := 5
    lottery_number := 300
    ticket_sale_id := none
    prize_category := some "THAR CAR".data
    prize_quantity := 1
    winner_name := some "Bob".data
    winner_contact := some "1112223334".data
    winner_address := none
    diary_number := none
    registered_at := 0
    registered_by := none
    notes := none
    created_at := 0
    updated_at := 0 }

/-- A ticket whose purchaser attempts to register for a prize. -/
def caraTicket : TicketSale :=
  { id := 9
    lottery_number := 500
    purchaser_name := some "Cara".data
    purchaser_contact := some "2223334445".data
    purchaser_address := none
    diary := false }

/-- Counterexample for C8 as stated: with the "THAR CAR" quantity already
exhausted, an attempt whose lottery number is also in the already-won
cache is rejected by the earlier cache check as `AlreadyWon`, not as
`QuantityExceeded`. -/
theorem register_quantity_counterexample :
    getRemainingQuantity [tharWinner] ("THAR CAR".data) ≤ 0 ∧
    registerWinner [500] [tharWinner] caraTicket (some ("THAR CAR".data)) =
      (Except.error RegisterError.AlreadyWon, [tharWinner]) ∧
    RegisterError.AlreadyWon ≠ RegisterError.QuantityExceeded := by
  refine ⟨by decide, rfl, by decide⟩

/-- Claim C8 (amended): when the already-won cache check (which runs
first) does not fire, a registration attempt whose selected category has
remaining quantity at most 0 in the winners state read at pre-check time
is rejected exactly with `QuantityExceeded`, before any insert, leaving
the winners state unchanged; with an exhausted category the attempt is in
every case rejected with some error and the state is unchanged; and the
ceiling is application-level only: the store-side insert path accepts a
row for an already-exhausted category. -/
theorem register_quantity_guard :
    (∀ (cache : List Int) (winners : List WinnerRow) (t : TicketSale)
        (p : Str),
      checkIfAlreadyWon cache t.lottery_number = false →
      getRemainingQuantity winners p ≤ 0 →
      registerWinner cache winners t (some p) =
        (Except.error RegisterError.QuantityExceeded, winners)) ∧
    (∀ (cache : List Int) (winners : List WinnerRow) (t : TicketSale)
        (p : Str),
      getRemainingQuantity winners p ≤ 0 →
      (∃ e, (registerWinner cache winners t (some p)).1 = Except.error e) ∧
        (registerWinner cache winners t (some p)).2 = winners) ∧
    (getRemainingQuantity [tharWinner] ("THAR CAR".data) ≤ 0 ∧
      ∃ rs, storeInsertWinner [tharWinner]
          (newWinnerRecord caraTicket ("THAR CAR".data)) = Except.ok rs) := by
  refine ⟨?_, ?_, by decide, ⟨_, rfl⟩⟩
  · intro cache winners t p hc hq
    simp only [registerWinner, hc, Bool.false_eq_true, if_false]
    rw [if_pos hq]
  · intro cache winners t p hq
    cases hc : checkIfAlreadyWon cache t.lottery_number with
    | true =>
      simp only [registerWinner, hc, if_true]
      exact ⟨⟨_, rfl⟩, trivial⟩
    | false =>
      simp only [registerWinner, hc, Bool.false_eq_true, if_false]
      rw [if_pos hq]
      exact ⟨⟨_, rfl⟩, rfl⟩

/-- Witness for C8 with an empty already-won cache: the exhausted
"THAR CAR" category is rejected with `QuantityExceeded` and the winners
state is unchanged. -/
theorem register_quantity_guard_witness :
    registerWinner [] [tharWinner] caraTicket (some ("THAR CAR".data)) =
      (Except.error RegisterError.QuantityExceeded, [tharWinner]) :=
  register_quantity_guard.1 [] [tharWinner] caraTicket ("THAR CAR".data)
    (by decide) (by decide)

/-- Claim C10: a winner row actually inserted by `registerWinner` for a
ticket with a valid lottery number has `diary_number` either absent or
equal to `getDiaryFromLotteryNumber` of the row's lottery number, and in
the latter case the lottery number lies in the range of that diary. -/
theorem registered_row_diary_consistent (cache : List Int)
    (winners : List WinnerRow) (t : TicketSale) (sel : Option Str)
    (r' : WinnerRow) (ws : List WinnerRow)
    (h1 : 1 ≤ t.lottery_number) (h2 : t.lottery_number ≤ 39999)
    (hreg : registerWinner cache winners t sel = (Except.ok r', ws)) :
    r'.diary_number = none ∨
      (r'.diary_number = some (getDiaryFromLotteryNumber r'.lottery_number) ∧
        ∃ d, r'.diary_number = some d ∧
          validateLotteryNumberForDiary r'.lottery_number d = true) := by
  cases sel with
  | none => simp [registerWinner] at hreg
  | some prize =>
    simp only [registerWinner] at hreg
    split_ifs at hreg
    · exact absurd hreg (by simp)
    · exact absurd hreg (by simp)
    · exact absurd hreg (by simp)
    · exact absurd hreg (by simp)
    cases hsi : storeInsertWinner winners (newWinnerRecord t prize) with
    | error e => rw [hsi] at hreg; simp at hreg
    | ok pr =>
      obtain ⟨r1, ws1⟩ := pr
      rw [hsi] at hreg
      simp only [Prod.mk.injEq, Except.ok.injEq] at hreg
      obtain ⟨hr1, hws1⟩ := hreg
      unfold storeInsertWinner at hsi
      cases hv : validate_winner_data_on_insert (newWinnerRecord t prize) with
      | error e => rw [hv] at hsi; simp at hsi
      | ok rv =>
        rw [hv] at hsi
        dsimp only at hsi
        split_ifs at hsi
        simp only [Except.ok.injEq, Prod.mk.injEq] at hsi
        have hshape := validate_insert_ok_shape _ _ hv
        have hrv : r' = rv := by rw [← hr1, hsi.1]
        subst hrv
        subst hshape
        cases ht : t.diary with
        | false => left; simp [newWinnerRecord, ht]
        | true =>
          right
          refine ⟨?_, getDiaryFromLotteryNumber t.lottery_number, ?_, ?_⟩ <;>
            simp [newWinnerRecord, ht,
              validate_diary_of_ticket t.lottery_number h1 h2]

/-- A ticket with a joined diary, used to drive a concrete registration. -/
def aliceTicket : TicketSale :=
  { id := 1
    lottery_number := 105
    purchaser_name := some "Alice".data
    purchaser_contact := some "9876543210".data
    purchaser_address := none
    diary := true }

/-- The row `registerWinner` persists for `aliceTicket` and "THAR CAR"
from an empty store. -/
def aliceRow : WinnerRow :=
  { id := 0
    lottery_number := 105
    ticket_sale_id := some 1
    prize_category := some "THAR CAR".data
    prize_quantity := 1
    winner_name := some "Alice".data
    winner_contact := some "9876543210".data
    winner_address := none
    diary_number := some 5
    registered_at := 0
    registered_by := none
    notes := none
    created_at := 0
    updated_at := 0 }

/-- Witness for C10 at the concrete registration of `aliceTicket`: the
inserted row carries `diary_number = 5` and lottery number 105 lies in
diary 5's range. -/
theorem registered_row_diary_consistent_witness :
    aliceRow.diary_number = none ∨
      (aliceRow.diary_number =
          some (getDiaryFromLotteryNumber aliceRow.lottery_number) ∧
        ∃ d, aliceRow.diary_number = some d ∧
          validateLotteryNumberForDiary aliceRow.lottery_number d = true) :=
  registered_row_diary_consistent [] [] aliceTicket (some ("THAR CAR".data))
    aliceRow [aliceRow] (by decide) (by decide) (by rfl)
